import Mathlib

/-!
Shallow embedding of the AoC puzzle harness (advent.py) and the day
solutions (day1.py, day12.py, day15.py) of nicodeslandes/AoC2019.

Modelling conventions:
* A file on disk is represented by its list of logical lines (no trailing
  newline characters); `readlines`/`readline` work on that list.
* Python exceptions are modelled with `Except`/`Option` (`Except.error` /
  `none` is a raised exception).
* Python integers are `Int`; Python `//` is floor division, i.e. `Int.fdiv`.
-/

namespace AoC2019

/-! ### Python string primitives

The Python string operations used by the sources (`str.strip`,
`str.startswith`, `str.replace`, `str.split`, `int(...)`) are modelled by
structural recursion over the character list of the string, so that every
definition evaluates inside the kernel. -/

/-- Python `str.strip()`: remove leading and trailing whitespace. -/
def pyStrip (s : String) : String :=
  ⟨((s.data.dropWhile Char.isWhitespace).reverse.dropWhile
      Char.isWhitespace).reverse⟩

/-- Python `s.startswith(pre)`. -/
def pyStartswith (s pre : String) : Bool :=
  pre.data.isPrefixOf s.data

/-- Left-to-right replacement of every non-overlapping occurrence of `old`
by `new`; the fuel is an upper bound on the number of characters consumed,
so `fuel = l.length` computes Python `str.replace` for a non-empty `old`. -/
def replaceCore (old new : List Char) : Nat → List Char → List Char
  | _, [] => []
  | 0, l => l
  | fuel + 1, c :: rest =>
    if old.isPrefixOf (c :: rest) then
      new ++ replaceCore old new fuel ((c :: rest).drop old.length)
    else
      c :: replaceCore old new fuel rest

/-- Python `s.replace(old, new)` (for the non-empty `old` used by the
source). -/
def pyReplace (s old new : String) : String :=
  ⟨replaceCore old.data new.data s.data.length s.data⟩

/-- The numeric value of a non-empty all-digit character list. -/
def digitsVal (l : List Char) : Option Nat :=
  if l ≠ [] ∧ l.all Char.isDigit then
    some (l.foldl (fun a c => 10 * a + (c.toNat - 48)) 0)
  else none

/-- Python `int(s)` on a string, `none` modelling `ValueError`: surrounding
whitespace is ignored and an optional sign precedes the digits. -/
def pyInt (s : String) : Option Int :=
  match (pyStrip s).data with
  | '-' :: rest => (digitsVal rest).map fun n => -(n : Int)
  | '+' :: rest => (digitsVal rest).map fun n => (n : Int)
  | l => (digitsVal l).map fun n => (n : Int)

/-- Python `s.split(sep)` for a single-character separator, on character
lists (`acc` holds the current field, reversed). -/
def splitAux (sep : Char) : List Char → List Char → List (List Char)
  | [], acc => [acc.reverse]
  | c :: rest, acc =>
    if c = sep then acc.reverse :: splitAux sep rest []
    else splitAux sep rest (c :: acc)

/-- Python `s.split(sep)` for a single-character separator. -/
def pySplit (s : String) (sep : Char) : List String :=
  (splitAux sep s.data []).map fun cs => ⟨cs⟩

instance {ε α : Type} [DecidableEq ε] [DecidableEq α] :
    DecidableEq (Except ε α) := fun a b =>
  match a, b with
  | .error x, .error y => decidable_of_iff (x = y) (by simp)
  | .error _, .ok _ => isFalse (by simp)
  | .ok _, .error _ => isFalse (by simp)
  | .ok x, .ok y => decidable_of_iff (x = y) (by simp)

/-! ### advent.py: PuzzleData -/

namespace PuzzleData

/-- `PuzzleData.get_data`: `lines if not self.is_test_file else lines[2:]`.
`lines` is the file content as returned by `readlines`. -/
def get_data (lines : List String) (is_test_file : Bool) : List String :=
  if is_test_file then lines.drop 2 else lines

/-- `PuzzleData.get_expected_result`: returns `none` for a real input file;
for a test file, reads the first line (`readline` on an empty file yields
`""`), strips it, requires the `Result: ` header and raises otherwise
(modelled as `Except.error`), and returns the line with every occurrence of
`Result: ` removed (Python `str.replace` replaces all occurrences). -/
def get_expected_result (lines : List String) (is_test_file : Bool) :
    Except String (Option String) :=
  if !is_test_file then Except.ok none
  else
    let first_line := pyStrip (lines.headD "")
    if !(pyStartswith first_line "Result: ") then
      Except.error "Invalid test file; it should start with 'Result: '"
    else
      Except.ok (some (pyReplace first_line "Result: " ""))

end PuzzleData

/-! ### advent.py: PuzzleRunner.run -/

namespace PuzzleRunner

/-- The comparison annotation computed by `PuzzleRunner.run`: empty when
there is no expected result, a checkmark on a match, a mismatch note
otherwise. -/
def comparison_result (expected_result : Option String) (result : String) :
    String :=
  match expected_result with
  | none => ""
  | some e => if e = result then " ✔️" else " ❌ (" ++ e ++ " expected)"

/-- The fixed part of the summary line printed by `PuzzleRunner.run`
(the thousands separator of the elapsed-ms formatting is not modelled). -/
def summary_line (day part : Nat) (result : String) (elapsed_ms : Nat) :
    String :=
  "Day " ++ toString day ++ " part " ++ toString part ++ ": " ++ result ++
    " (in " ++ toString elapsed_ms ++ " ms)"

/-- `PuzzleRunner.run`, modelled as the line it prints. `result` is the
stringified solver result (`str(result)`). The source's `run` has no other
effect: it mutates no attribute and raises nothing itself. -/
def run (day part : Nat) (result : String) (elapsed_ms : Nat)
    (expected_result : Option String) : String :=
  summary_line day part result elapsed_ms ++
    comparison_result expected_result result

end PuzzleRunner

/-! ### day1.py -/

namespace day1

/-- `calculate_module_fuel(mass) = mass // 3 - 2` (Python `//` on ints is
floor division). -/
def calculate_module_fuel (mass : Int) : Int :=
  Int.fdiv mass 3 - 2

/-- The inner `while (mass := calculate_module_fuel(mass)) > 0: sum += mass`
loop of `part2`: the total of the positive fuel increments obtained by
re-applying `calculate_module_fuel`. -/
def totalFuel (mass : Int) : Int :=
  let m := calculate_module_fuel mass
  if _h : 0 < m then m + totalFuel m else 0
termination_by mass.toNat
decreasing_by
  have hm : calculate_module_fuel mass = mass / 3 - 2 := by
    simp only [calculate_module_fuel]
    rw [Int.fdiv_eq_ediv _ (by omega)]
  omega

/-- The line loop of `part2`: stops at the first empty line (`break`),
otherwise parses the mass and accumulates its recursive fuel. -/
def part2Go (input : List String) : Option Int :=
  match input with
  | [] => some 0
  | line :: rest =>
    if line = "" then some 0
    else
      (pyInt line).bind fun mass =>
        (part2Go rest).map fun s => totalFuel mass + s

/-- `part2(input)` of day1.py. -/
def part2 (input : List String) : Option Int :=
  part2Go input

end day1

/-! ### day12.py -/

namespace day12

/-- The `Direction` enum of day12.py. -/
inductive Direction where
  | N | S | E | W | L | R | F
deriving DecidableEq

/-- An `Action`: a direction-or-rotation and a magnitude. -/
structure Action where
  dir : Direction
  dist : Int
deriving DecidableEq

/-- The `cardinal_dirs_R` dict: clockwise rotation of the four cardinal
directions; looking up a non-key (`L`/`R`/`F`) raises `KeyError` (`none`). -/
def cardinal_dirs_R : Direction → Option Direction
  | .N => some .E
  | .E => some .S
  | .S => some .W
  | .W => some .N
  | _ => none

/-- The `cardinal_dirs_L` dict: counter-clockwise rotation of the four
cardinal directions; looking up a non-key raises `KeyError` (`none`). -/
def cardinal_dirs_L : Direction → Option Direction
  | .N => some .W
  | .E => some .N
  | .S => some .E
  | .W => some .S
  | _ => none

/-- The `for _ in range(n): self.direction = dict[self.direction]` loop of
`Ship.move`, propagating a `KeyError`. -/
def rotateLoop (dict : Direction → Option Direction) :
    Nat → Direction → Option Direction
  | 0, d => some d
  | n + 1, d => (dict d).bind (rotateLoop dict n)

/-- A `Ship`: a heading and a 2D position. -/
structure Ship where
  direction : Direction
  pos : Int × Int
deriving DecidableEq

/-- `Ship()`: starts at the origin heading East. -/
def Ship.init : Ship :=
  { direction := .E, pos := (0, 0) }

/-- `Ship.move`, with explicit recursion fuel for the source's
`self.move(Action(self.direction, action.dist))` self-call on `F`.
Fuel 0 (`none`) models the non-terminating `F`-with-heading-`F` case;
depth 2 is reached exactly when Python's recursion terminates.
`range(action.dist // 90)` is empty for a negative count, hence
`(dist.fdiv 90).toNat` rotation steps. -/
def Ship.moveFuel : Nat → Ship → Action → Option Ship
  | 0, _, _ => none
  | fuel + 1, s, a =>
    match a.dir with
    | .N => some { s with pos := (s.pos.1, s.pos.2 - a.dist) }
    | .S => some { s with pos := (s.pos.1, s.pos.2 + a.dist) }
    | .E => some { s with pos := (s.pos.1 - a.dist, s.pos.2) }
    | .W => some { s with pos := (s.pos.1 + a.dist, s.pos.2) }
    | .F => Ship.moveFuel fuel s { dir := s.direction, dist := a.dist }
    | .R => (rotateLoop cardinal_dirs_R (a.dist.fdiv 90).toNat s.direction).map
        fun d => { s with direction := d }
    | .L => (rotateLoop cardinal_dirs_L (a.dist.fdiv 90).toNat s.direction).map
        fun d => { s with direction := d }

/-- `Ship.move`: recursion depth 2 suffices whenever the source terminates
(the `F` branch recurses once, and only an `F` heading recurses again). -/
def Ship.move (s : Ship) (a : Action) : Option Ship :=
  Ship.moveFuel 2 s a

/-- `Direction[line[0]]`: enum lookup by name, `KeyError` on other chars. -/
def parseDir (c : Char) : Option Direction :=
  if c = 'N' then some .N
  else if c = 'S' then some .S
  else if c = 'E' then some .E
  else if c = 'W' then some .W
  else if c = 'L' then some .L
  else if c = 'R' then some .R
  else if c = 'F' then some .F
  else none

/-- `Action(Direction[line[0]], int(line[1:]))`; `line[0]` of an empty
string raises (`none`), as does an unparsable magnitude. -/
def parseAction (line : String) : Option Action :=
  (line.data.head?).bind fun c =>
    (parseDir c).bind fun d =>
      (pyInt ⟨line.data.drop 1⟩).map fun n => { dir := d, dist := n }

/-- `part1(input)` of day12.py: fold the actions over a fresh ship and
return the Manhattan distance of the final position from the origin. -/
def part1 (input : List String) : Option Int :=
  (input.foldlM (fun s line => (parseAction line).bind s.move) Ship.init).map
    fun s => ((s.pos.1.natAbs + s.pos.2.natAbs : Nat) : Int)

/-- The four dict keys of `cardinal_dirs_R`/`cardinal_dirs_L`. -/
def IsCardinal (d : Direction) : Prop :=
  d = .N ∨ d = .S ∨ d = .E ∨ d = .W

instance (d : Direction) : Decidable (IsCardinal d) := by
  unfold IsCardinal
  infer_instance

/-- One clockwise rotation step as a total function on the dict's keys
(junk-free on the four cardinals: it agrees with `cardinal_dirs_R` there). -/
def rotR (d : Direction) : Direction :=
  (cardinal_dirs_R d).getD d

/-- One counter-clockwise rotation step as a total function on the dict's
keys. -/
def rotL (d : Direction) : Direction :=
  (cardinal_dirs_L d).getD d

/-- The position update of the `N`/`S`/`E`/`W` branches of `Ship.move`,
used to state what `F` does with a cardinal heading. -/
def translate (p : Int × Int) (d : Direction) (dist : Int) : Int × Int :=
  match d with
  | .N => (p.1, p.2 - dist)
  | .S => (p.1, p.2 + dist)
  | .E => (p.1 - dist, p.2)
  | .W => (p.1 + dist, p.2)
  | _ => p

end day12

/-! ### day15.py -/

namespace day15

/-- The `numbers_turns` dict, modelled as a finite map from numbers to
their recorded turn lists. -/
abbrev Table : Type :=
  Batteries.RBMap Int (List Int) compare

/-- Dict lookup: `numbers_turns.get(value)` / `numbers_turns[value]`. -/
def dictGet (t : Table) (k : Int) : Option (List Int) :=
  t.find? k

/-- Dict assignment `numbers_turns[k] = v`. -/
def dictSet (t : Table) (k : Int) (v : List Int) : Table :=
  t.insert k v

/-- The state of the `play()` generator between yields: the
`numbers_turns` dict, the `last` spoken number and the turn counter `i`. -/
structure GameState where
  numbers_turns : Table
  last : Int
  i : Nat

/-- The state after the start-up phase of `part1`/`play()`: every start
number is first bound to `[]`, then the first `for` loop of `play()`
rebinds `start[i]` to `[i]` while yielding it; afterwards `last` is
`start[-1]` (the start list is never empty when this is reached; Python
would raise on `start[-1]` otherwise) and `i = len(start)`. -/
def initState (start : List Int) : GameState :=
  let t0 := start.foldl (fun t n => dictSet t n []) Batteries.RBMap.empty
  let t1 := start.enum.foldl (fun t p => dictSet t p.2 [(p.1 : Int)]) t0
  { numbers_turns := t1, last := start.getLastD 0, i := start.length }

/-- `produce(value)`: record the turn `i` for `value` (keeping only the
previous most recent turn `turns[-1]`, when any) and make it the `last`
spoken number. `turns` is never `[]` here, so `getLastD` never falls back. -/
def produce (s : GameState) (value : Int) : GameState :=
  let t :=
    match dictGet s.numbers_turns value with
    | none => dictSet s.numbers_turns value [(s.i : Int)]
    | some turns => dictSet s.numbers_turns value [turns.getLastD 0, (s.i : Int)]
  { numbers_turns := t, last := value, i := s.i }

/-- One iteration of the `while True` loop of `play()`: look up the turns
of `last`, produce `0` if it was just spoken for the first time and the gap
`t2 - t1` otherwise, then advance the turn counter. A missing key or a
turn list that is not of length 1 or 2 raises (`none`); neither occurs in
a reachable state. -/
def step (s : GameState) : Option GameState :=
  match dictGet s.numbers_turns s.last with
  | some [_] =>
    let s' := produce s 0
    some { s' with i := s'.i + 1 }
  | some [t1, t2] =>
    let s' := produce s (t2 - t1)
    some { s' with i := s'.i + 1 }
  | _ => none

/-- `n` iterations of the `while True` loop. -/
def stepN (s : GameState) : Nat → Option GameState
  | 0 => some s
  | n + 1 => (step s).bind fun s' => stepN s' n

/-- The `k`-th number yielded by `play()` (1-based): one of the start
numbers first, then the numbers computed by the `while` loop (each
iteration's number is its new `last`). -/
def nthNumber (start : List Int) (k : Nat) : Option Int :=
  if k = 0 then none
  else if k ≤ start.length then some (start.getD (k - 1) 0)
  else (stepN (initState start) (k - start.length)).map GameState.last

/-- `list(map(int, input[0].split(',')))`, `none` on a parse failure. -/
def parseStart (input : List String) : Option (List Int) :=
  (pySplit (input.headD "") ',').mapM pyInt

/-- `part1(input)` of day15.py: the 2020-th number yielded by `play()`
(`next(itertools.islice(play(), 2019, None))`). -/
def part1 (input : List String) : Option Int :=
  (parseStart input).bind fun start => nthNumber start 2020

end day15

/-! ### Helper lemmas -/

/-- Unfolding `totalFuel` when the next increment is non-positive: the loop
exits without counting it. -/
theorem day1.totalFuel_nonpos {m : Int} (h : day1.calculate_module_fuel m ≤ 0) :
    day1.totalFuel m = 0 := by
  rw [day1.totalFuel]
  exact dif_neg (not_lt.2 h)

/-- Unfolding `totalFuel` when the next increment is positive: it is
counted and the loop continues from it. -/
theorem day1.totalFuel_pos {m : Int} (h : 0 < day1.calculate_module_fuel m) :
    day1.totalFuel m =
      day1.calculate_module_fuel m + day1.totalFuel (day1.calculate_module_fuel m) := by
  rw [day1.totalFuel]
  exact dif_pos h

theorem day1.totalFuel_5 : day1.totalFuel 5 = 0 :=
  day1.totalFuel_nonpos (by decide)

theorem day1.totalFuel_21 : day1.totalFuel 21 = 5 := by
  rw [day1.totalFuel_pos (by decide)]
  norm_num [show day1.calculate_module_fuel 21 = 5 from by decide, day1.totalFuel_5]

theorem day1.totalFuel_70 : day1.totalFuel 70 = 26 := by
  rw [day1.totalFuel_pos (by decide)]
  norm_num [show day1.calculate_module_fuel 70 = 21 from by decide, day1.totalFuel_21]

theorem day1.totalFuel_216 : day1.totalFuel 216 = 96 := by
  rw [day1.totalFuel_pos (by decide)]
  norm_num [show day1.calculate_module_fuel 216 = 70 from by decide, day1.totalFuel_70]

theorem day1.totalFuel_654 : day1.totalFuel 654 = 312 := by
  rw [day1.totalFuel_pos (by decide)]
  norm_num [show day1.calculate_module_fuel 654 = 216 from by decide, day1.totalFuel_216]

theorem day1.totalFuel_1969 : day1.totalFuel 1969 = 966 := by
  rw [day1.totalFuel_pos (by decide)]
  norm_num [show day1.calculate_module_fuel 1969 = 654 from by decide, day1.totalFuel_654]

theorem day1.totalFuel_2 : day1.totalFuel 2 = 0 :=
  day1.totalFuel_nonpos (by decide)

theorem day1.totalFuel_12 : day1.totalFuel 12 = 2 := by
  rw [day1.totalFuel_pos (by decide)]
  norm_num [show day1.calculate_module_fuel 12 = 2 from by decide, day1.totalFuel_2]

theorem day1.totalFuel_43 : day1.totalFuel 43 = 14 := by
  rw [day1.totalFuel_pos (by decide)]
  norm_num [show day1.calculate_module_fuel 43 = 12 from by decide, day1.totalFuel_12]

theorem day1.totalFuel_135 : day1.totalFuel 135 = 57 := by
  rw [day1.totalFuel_pos (by decide)]
  norm_num [show day1.calculate_module_fuel 135 = 43 from by decide, day1.totalFuel_43]

theorem day1.totalFuel_411 : day1.totalFuel 411 = 192 := by
  rw [day1.totalFuel_pos (by decide)]
  norm_num [show day1.calculate_module_fuel 411 = 135 from by decide, day1.totalFuel_135]

theorem day1.totalFuel_1240 : day1.totalFuel 1240 = 603 := by
  rw [day1.totalFuel_pos (by decide)]
  norm_num [show day1.calculate_module_fuel 1240 = 411 from by decide, day1.totalFuel_411]

theorem day1.totalFuel_3728 : day1.totalFuel 3728 = 1843 := by
  rw [day1.totalFuel_pos (by decide)]
  norm_num [show day1.calculate_module_fuel 3728 = 1240 from by decide, day1.totalFuel_1240]

theorem day1.totalFuel_11192 : day1.totalFuel 11192 = 5571 := by
  rw [day1.totalFuel_pos (by decide)]
  norm_num [show day1.calculate_module_fuel 11192 = 3728 from by decide, day1.totalFuel_3728]

theorem day1.totalFuel_33583 : day1.totalFuel 33583 = 16763 := by
  rw [day1.totalFuel_pos (by decide)]
  norm_num [show day1.calculate_module_fuel 33583 = 11192 from by decide, day1.totalFuel_11192]

theorem day1.totalFuel_100756 : day1.totalFuel 100756 = 50346 := by
  rw [day1.totalFuel_pos (by decide)]
  norm_num [show day1.calculate_module_fuel 100756 = 33583 from by decide, day1.totalFuel_33583]

/-! ### Claim theorems -/

/-- C1, counterexample: for the cached test fixture whose lines are
`Result: 42`, `a`, `b`, `get_data()` does *not* return `["a", "b"]`
(it returns `["b"]`: two header lines are stripped, not one). -/
theorem C1_counterexample :
    PuzzleData.get_data ["Result: 42", "a", "b"] true ≠ ["a", "b"] := by
  decide

/-- C1, as amended: for that fixture `get_expected_result()` returns `"42"`
and `get_data()` returns `["b"]` — the first *two* lines (the `Result:`
header and the following line) are stripped, matching the fixture format
written by `read_test_file`, which inserts an `Input:` second header line. -/
theorem C1_fixture_loader :
    PuzzleData.get_expected_result ["Result: 42", "a", "b"] true =
      Except.ok (some "42") ∧
    PuzzleData.get_data ["Result: 42", "a", "b"] true = ["b"] := by
  constructor
  · decide
  · decide

/-- C2: `calculate_module_fuel(m)` is exactly `floor(m/3) - 2` for every
non-negative integer `m` (floor division of a natural number is `Nat`
division), with the four example values from the spec. -/
theorem C2_fuel_formula :
    (∀ m : Nat, day1.calculate_module_fuel (m : Int) = ((m / 3 : Nat) : Int) - 2) ∧
    day1.calculate_module_fuel 12 = 2 ∧
    day1.calculate_module_fuel 14 = 2 ∧
    day1.calculate_module_fuel 1969 = 654 ∧
    day1.calculate_module_fuel 100756 = 33583 := by
  refine ⟨fun m => ?_, by decide, by decide, by decide, by decide⟩
  have h := Int.ofNat_fdiv m 3
  push_cast at h
  simp only [day1.calculate_module_fuel]
  omega

/-- C3: the part-2 loop stops at a non-positive increment without counting
it, counts every positive increment by re-applying `calculate_module_fuel`,
and `part2` yields 966 for the single mass 1969 and 50346 for 100756. -/
theorem C3_part2_fuel :
    (∀ m : Int, day1.calculate_module_fuel m ≤ 0 → day1.totalFuel m = 0) ∧
    (∀ m : Int, 0 < day1.calculate_module_fuel m →
      day1.totalFuel m =
        day1.calculate_module_fuel m + day1.totalFuel (day1.calculate_module_fuel m)) ∧
    day1.part2 ["1969"] = some 966 ∧
    day1.part2 ["100756"] = some 50346 := by
  refine ⟨fun m h => day1.totalFuel_nonpos h, fun m h => day1.totalFuel_pos h, ?_, ?_⟩
  · show some (day1.totalFuel 1969 + 0) = some 966
    rw [day1.totalFuel_1969]
    norm_num
  · show some (day1.totalFuel 100756 + 0) = some 50346
    rw [day1.totalFuel_100756]
    norm_num

/-- C3 witness: at mass 2 the increment is non-positive and the loop adds
nothing; at mass 21 the increment 5 is positive and counted. -/
theorem C3_part2_fuel_witness :
    (day1.calculate_module_fuel 2 ≤ 0 ∧ day1.totalFuel 2 = 0) ∧
    (0 < day1.calculate_module_fuel 21 ∧
      day1.totalFuel 21 =
        day1.calculate_module_fuel 21 + day1.totalFuel (day1.calculate_module_fuel 21)) :=
  ⟨⟨by decide, C3_part2_fuel.1 2 (by decide)⟩,
   ⟨by decide, C3_part2_fuel.2.1 21 (by decide)⟩⟩

/-- C6: `get_expected_result()` on a test fixture raises exactly when the
stripped first line does not start with `Result: `; otherwise it returns
the expected-result string with the prefix removed. -/
theorem C6_header_check :
    (∀ lines : List String,
      pyStartswith (pyStrip (lines.headD "")) "Result: " = false →
      ∃ e, PuzzleData.get_expected_result lines true = Except.error e) ∧
    (∀ lines : List String,
      pyStartswith (pyStrip (lines.headD "")) "Result: " = true →
      PuzzleData.get_expected_result lines true =
        Except.ok (some (pyReplace (pyStrip (lines.headD "")) "Result: " ""))) := by
  constructor
  · intro lines h
    refine ⟨"Invalid test file; it should start with 'Result: '", ?_⟩
    simp only [PuzzleData.get_expected_result, h]
    rfl
  · intro lines h
    simp only [PuzzleData.get_expected_result, h]
    rfl

/-- C6 witness: the fixture `["oops"]` raises; `["Result: 42", "a", "b"]`
yields `"42"`. -/
theorem C6_header_check_witness :
    (pyStartswith (pyStrip "oops") "Result: " = false ∧
      ∃ e, PuzzleData.get_expected_result ["oops"] true = Except.error e) ∧
    (pyStartswith (pyStrip "Result: 42") "Result: " = true ∧
      PuzzleData.get_expected_result ["Result: 42", "a", "b"] true =
        Except.ok (some "42")) :=
  ⟨⟨by decide, C6_header_check.1 ["oops"] (by decide)⟩,
   ⟨by decide,
    (C6_header_check.2 ["Result: 42", "a", "b"] (by decide)).trans (by decide)⟩⟩

/-- C7: a mismatch between the expected result and the stringified solver
result only appends a mismatch note to the summary line — `run` is a pure
total function of its inputs, so it completes normally, raises nothing and
mutates nothing; with no expected result the line carries no comparison
annotation at all. -/
theorem C7_mismatch_reporting :
    (∀ (day part : Nat) (result : String) (elapsed_ms : Nat) (e : String),
      e ≠ result →
      PuzzleRunner.run day part result elapsed_ms (some e) =
        PuzzleRunner.summary_line day part result elapsed_ms ++
          (" ❌ (" ++ e ++ " expected)")) ∧
    (∀ (day part : Nat) (result : String) (elapsed_ms : Nat),
      PuzzleRunner.run day part result elapsed_ms none =
        PuzzleRunner.summary_line day part result elapsed_ms) ∧
    (∀ result : String, PuzzleRunner.comparison_result none result = "") := by
  refine ⟨fun day part result elapsed_ms e h => ?_, fun day part result elapsed_ms => ?_,
    fun result => rfl⟩
  · simp [PuzzleRunner.run, PuzzleRunner.comparison_result, h]
  · simp [PuzzleRunner.run, PuzzleRunner.comparison_result]

/-- C7 witness: expected `"41"`, actual `"42"`: the printed line is the
summary line followed by the mismatch note. -/
theorem C7_mismatch_reporting_witness :
    ("41" : String) ≠ "42" ∧
    PuzzleRunner.run 1 1 "42" 5 (some "41") =
      PuzzleRunner.summary_line 1 1 "42" 5 ++ (" ❌ (" ++ "41" ++ " expected)") :=
  ⟨by decide, C7_mismatch_reporting.1 1 1 "42" 5 "41" (by decide)⟩

/-- C9: the part-2 inner loop terminates: `calculate_module_fuel`
strictly decreases every positive mass, so iterating it from any integer
mass reaches a non-positive value after finitely many applications. -/
theorem C9_inner_loop_terminates :
    (∀ m : Int, 0 < m → day1.calculate_module_fuel m < m) ∧
    (∀ m : Int, ∃ n : Nat, day1.calculate_module_fuel^[n] m ≤ 0) := by
  have hdec : ∀ m : Int, 0 < m → day1.calculate_module_fuel m < m := by
    intro m hm
    have h := Int.fdiv_eq_ediv m (by omega : (0 : Int) ≤ 3)
    simp only [day1.calculate_module_fuel]
    omega
  refine ⟨hdec, fun m => ?_⟩
  have aux : ∀ (k : Nat) (m : Int), m.toNat ≤ k →
      ∃ n : Nat, day1.calculate_module_fuel^[n] m ≤ 0 := by
    intro k
    induction k with
    | zero =>
      intro m hm
      exact ⟨0, by simpa using (by omega : m ≤ 0)⟩
    | succ k ih =>
      intro m hm
      by_cases h0 : m ≤ 0
      · exact ⟨0, by simpa using h0⟩
      · have hlt := hdec m (by omega)
        obtain ⟨n, hn⟩ := ih (day1.calculate_module_fuel m) (by omega)
        exact ⟨n + 1, by simpa [Function.iterate_succ_apply] using hn⟩
  exact aux m.toNat m le_rfl

/-- C9 witness: at mass 100 the next increment 31 is strictly smaller. -/
theorem C9_inner_loop_terminates_witness :
    0 < (100 : Int) ∧ day1.calculate_module_fuel 100 < 100 :=
  ⟨by decide, C9_inner_loop_terminates.1 100 (by decide)⟩

/-- On a cardinal heading, the `R`-rotation loop never raises and computes
the `n`-th iterate of the one-step clockwise rotation. -/
theorem day12.rotateLoop_R_cardinal :
    ∀ (n : Nat) (d : day12.Direction), day12.IsCardinal d →
      day12.rotateLoop day12.cardinal_dirs_R n d = some (day12.rotR^[n] d) := by
  intro n
  induction n with
  | zero => intro d _; rfl
  | succ n ih =>
    intro d hd
    have hnext : day12.IsCardinal (day12.rotR d) := by
      rcases hd with h | h | h | h <;> subst h <;> decide
    rcases hd with h | h | h | h <;> subst h <;>
      simp only [day12.rotateLoop, day12.cardinal_dirs_R, Option.some_bind,
        Function.iterate_succ_apply] <;>
      exact (ih _ hnext).trans (by rfl)

/-- On a cardinal heading, the `L`-rotation loop never raises and computes
the `n`-th iterate of the one-step counter-clockwise rotation. -/
theorem day12.rotateLoop_L_cardinal :
    ∀ (n : Nat) (d : day12.Direction), day12.IsCardinal d →
      day12.rotateLoop day12.cardinal_dirs_L n d = some (day12.rotL^[n] d) := by
  intro n
  induction n with
  | zero => intro d _; rfl
  | succ n ih =>
    intro d hd
    have hnext : day12.IsCardinal (day12.rotL d) := by
      rcases hd with h | h | h | h <;> subst h <;> decide
    rcases hd with h | h | h | h <;> subst h <;>
      simp only [day12.rotateLoop, day12.cardinal_dirs_L, Option.some_bind,
        Function.iterate_succ_apply] <;>
      exact (ih _ hnext).trans (by rfl)

/-- C4: the sample voyage `F10, N3, F7, R90, F11` from a ship at the
origin heading East ends at Manhattan distance 25 from the origin. -/
theorem C4_ship_sample_voyage :
    day12.part1 ["F10", "N3", "F7", "R90", "F11"] = some 25 := by
  decide

/-- C8: `L`/`R` actions only rotate (one step per full 90 units, `R`
clockwise `N→E→S→W→N`, `L` counter-clockwise) and leave the position
unchanged; `N`/`S`/`E`/`W`/`F` actions only translate by the action's
magnitude (`F` along the current heading) and leave the heading
unchanged. -/
theorem C8_move_frame :
    (∀ (s : day12.Ship) (a : day12.Action) (s' : day12.Ship),
      a.dir = .L ∨ a.dir = .R → day12.Ship.move s a = some s' → s'.pos = s.pos) ∧
    (∀ (s : day12.Ship) (a : day12.Action) (s' : day12.Ship),
      a.dir = .N ∨ a.dir = .S ∨ a.dir = .E ∨ a.dir = .W ∨ a.dir = .F →
      day12.Ship.move s a = some s' → s'.direction = s.direction) ∧
    (∀ (s : day12.Ship) (dist : Int), day12.IsCardinal s.direction →
      day12.Ship.move s { dir := .R, dist := dist } =
        some { s with direction := day12.rotR^[(dist.fdiv 90).toNat] s.direction }) ∧
    (∀ (s : day12.Ship) (dist : Int), day12.IsCardinal s.direction →
      day12.Ship.move s { dir := .L, dist := dist } =
        some { s with direction := day12.rotL^[(dist.fdiv 90).toNat] s.direction }) ∧
    (day12.rotR .N = .E ∧ day12.rotR .E = .S ∧ day12.rotR .S = .W ∧
      day12.rotR .W = .N) ∧
    (day12.rotL .N = .W ∧ day12.rotL .W = .S ∧ day12.rotL .S = .E ∧
      day12.rotL .E = .N) ∧
    (∀ (s : day12.Ship) (dist : Int) (d : day12.Direction), day12.IsCardinal d →
      day12.Ship.move s { dir := d, dist := dist } =
        some { s with pos := day12.translate s.pos d dist }) ∧
    (∀ (s : day12.Ship) (dist : Int), day12.IsCardinal s.direction →
      day12.Ship.move s { dir := .F, dist := dist } =
        some { s with pos := day12.translate s.pos s.direction dist }) := by
  refine ⟨?_, ?_, ?_, ?_, by decide, by decide, ?_, ?_⟩
  · rintro ⟨sdir, spos⟩ ⟨adir, adist⟩ s' (h | h) hm <;> subst h <;>
      simp only [day12.Ship.move, day12.Ship.moveFuel, Option.map_eq_some'] at hm <;>
      obtain ⟨d, -, hd⟩ := hm <;> subst hd <;> rfl
  · rintro ⟨sdir, spos⟩ ⟨adir, adist⟩ s' (h | h | h | h | h) hm <;> subst h <;>
      simp only [day12.Ship.move, day12.Ship.moveFuel] at hm
    · exact (Option.some.inj hm) ▸ rfl
    · exact (Option.some.inj hm) ▸ rfl
    · exact (Option.some.inj hm) ▸ rfl
    · exact (Option.some.inj hm) ▸ rfl
    · cases sdir
      case N => exact (Option.some.inj hm) ▸ rfl
      case S => exact (Option.some.inj hm) ▸ rfl
      case E => exact (Option.some.inj hm) ▸ rfl
      case W => exact (Option.some.inj hm) ▸ rfl
      case F => exact absurd hm (by simp [day12.Ship.moveFuel])
      case R =>
        rcases hn : (adist.fdiv 90).toNat with - | n
        · rw [hn] at hm
          simp only [day12.rotateLoop, Option.map_some'] at hm
          exact (Option.some.inj hm) ▸ rfl
        · rw [hn] at hm
          simp [day12.rotateLoop, day12.cardinal_dirs_R] at hm
      case L =>
        rcases hn : (adist.fdiv 90).toNat with - | n
        · rw [hn] at hm
          simp only [day12.rotateLoop, Option.map_some'] at hm
          exact (Option.some.inj hm) ▸ rfl
        · rw [hn] at hm
          simp [day12.rotateLoop, day12.cardinal_dirs_L] at hm
  · rintro ⟨sdir, spos⟩ dist hcard
    simp only [day12.Ship.move, day12.Ship.moveFuel,
      day12.rotateLoop_R_cardinal _ _ hcard, Option.map_some']
  · rintro ⟨sdir, spos⟩ dist hcard
    simp only [day12.Ship.move, day12.Ship.moveFuel,
      day12.rotateLoop_L_cardinal _ _ hcard, Option.map_some']
  · rintro ⟨sdir, spos⟩ dist d (h | h | h | h) <;> subst h <;> rfl
  · rintro ⟨sdir, spos⟩ dist hcard
    rcases hcard with h | h | h | h <;> subst h <;> rfl

/-- C8 witness: a ship heading East turning `R 180` ends up heading West at
the same position; an `F 7` from a cardinal heading translates only. -/
theorem C8_move_frame_witness :
    day12.IsCardinal day12.Ship.init.direction ∧
    day12.Ship.move day12.Ship.init { dir := .R, dist := 180 } =
      some { day12.Ship.init with
        direction := day12.rotR^[((180 : Int).fdiv 90).toNat]
          day12.Ship.init.direction } :=
  ⟨by decide, C8_move_frame.2.2.1 day12.Ship.init 180 (by decide)⟩

/-- C10: on the four cardinal directions the two rotation dicts are
mutually inverse; hence `R 90` then `L 90` is the identity on a ship with
a cardinal heading, as are four successive `R 90` actions. -/
theorem C10_rotation_tables_inverse :
    (∀ d : day12.Direction, day12.IsCardinal d →
      (day12.cardinal_dirs_R d).bind day12.cardinal_dirs_L = some d ∧
      (day12.cardinal_dirs_L d).bind day12.cardinal_dirs_R = some d) ∧
    (∀ s : day12.Ship, day12.IsCardinal s.direction →
      (day12.Ship.move s { dir := .R, dist := 90 }).bind
        (fun s1 => day12.Ship.move s1 { dir := .L, dist := 90 }) = some s) ∧
    (∀ s : day12.Ship, day12.IsCardinal s.direction →
      (day12.Ship.move s { dir := .R, dist := 90 }).bind
        (fun s1 => (day12.Ship.move s1 { dir := .R, dist := 90 }).bind
          (fun s2 => (day12.Ship.move s2 { dir := .R, dist := 90 }).bind
            (fun s3 => day12.Ship.move s3 { dir := .R, dist := 90 }))) = some s) := by
  refine ⟨fun d hd => ?_, fun s hs => ?_, fun s hs => ?_⟩
  · rcases hd with h | h | h | h <;> subst h <;> exact ⟨rfl, rfl⟩
  · obtain ⟨sdir, spos⟩ := s
    rcases hs with h | h | h | h <;> subst h <;> rfl
  · obtain ⟨sdir, spos⟩ := s
    rcases hs with h | h | h | h <;> subst h <;> rfl

/-- C10 witness: the initial ship (heading East) returns to its state after
`R 90` followed by `L 90`. -/
theorem C10_rotation_tables_inverse_witness :
    day12.IsCardinal day12.Ship.init.direction ∧
    (day12.Ship.move day12.Ship.init { dir := .R, dist := 90 }).bind
      (fun s1 => day12.Ship.move s1 { dir := .L, dist := 90 }) =
        some day12.Ship.init :=
  ⟨by decide, C10_rotation_tables_inverse.2.1 day12.Ship.init (by decide)⟩

set_option maxRecDepth 100000 in
set_option maxHeartbeats 8000000 in
/-- C5: a loop iteration produces 0 when the previously spoken number has
exactly one recorded turn (it had just been spoken for the first time) and
the gap `t2 - t1` between its two most recent turns otherwise; for the
starting sequence `0,3,6` the 10th number produced is 0 and `part1` (the
2020th number produced) is 436. -/
theorem C5_memory_game :
    (∀ (s s' : day15.GameState) (t : Int),
      day15.dictGet s.numbers_turns s.last = some [t] →
      day15.step s = some s' → s'.last = 0) ∧
    (∀ (s s' : day15.GameState) (t1 t2 : Int),
      day15.dictGet s.numbers_turns s.last = some [t1, t2] →
      day15.step s = some s' → s'.last = t2 - t1) ∧
    day15.nthNumber [0, 3, 6] 10 = some 0 ∧
    day15.part1 ["0,3,6"] = some 436 := by
  refine ⟨?_, ?_, by decide, by decide⟩
  · intro s s' t h hstep
    simp only [day15.step, h] at hstep
    exact (Option.some.inj hstep) ▸ rfl
  · intro s s' t1 t2 h hstep
    simp only [day15.step, h] at hstep
    exact (Option.some.inj hstep) ▸ rfl

/-- C5 witness: after the start-up phase for `0,3,6` the last number 6 has
the single recorded turn `[2]`, so the first loop iteration produces 0. -/
theorem C5_memory_game_witness :
    day15.dictGet (day15.initState [0, 3, 6]).numbers_turns
        (day15.initState [0, 3, 6]).last = some [2] ∧
    day15.step (day15.initState [0, 3, 6]) =
      some { numbers_turns :=
               day15.dictSet (day15.initState [0, 3, 6]).numbers_turns 0 [0, 3],
             last := 0, i := 4 } ∧
    ({ numbers_turns :=
         day15.dictSet (day15.initState [0, 3, 6]).numbers_turns 0 [0, 3],
       last := 0, i := 4 } : day15.GameState).last = 0 :=
  ⟨by decide, rfl,
   C5_memory_game.1 (day15.initState [0, 3, 6]) _ 2 (by decide) rfl⟩

end AoC2019
